import Mathlib

set_option maxRecDepth 8000

/-!
Verification development for the Cal-Chat-Agent repository.

This file is a shallow embedding, in Lean 4, of the calendar tool layer of the
repository (src/calbolt_chat_agent/tools/calendar_functions.py) together with
the Cal.com API client boundary (src/calbolt_chat_agent/api/calcom_client.py).

Modelling conventions:
- Python strings are Lean String values; Python string operations
  (lower, substring membership, startswith, isdigit) are re-implemented over
  the character list of the string, with code-point comparison semantics.
- Python datetime values are modelled by a record of integer civil fields;
  instants are compared and shifted through a minutes-since-epoch integer
  (proleptic Gregorian day numbering, days since 1970-01-01).
- The fixed local timezone America/Los_Angeles is modelled by the post-2007
  US daylight-saving rule (DST from 02:00 local on the second Sunday of March
  to 02:00 local on the first Sunday of November, offsets UTC-7/UTC-8), which
  is the rule pytz applies to every date this system handles.  The pytz
  localize call in the source uses its default is_dst=False policy, which
  resolves both ambiguous and nonexistent local times to the standard-time
  (UTC-8) interpretation; the embedding reproduces exactly that policy.
- Fallible Python code (parsing, conversion) is modelled with Option; a tool
  body that catches exceptions is modelled as a total function into a result
  type with an explicit error constructor.
- Network calls are modelled by passing the would-be response (or the bookings
  returned by the client) as an explicit argument of the tool function.
-/

/-! ## Python-style string primitives -/

/-- Lower-case a single ASCII character, as Python str.lower does on ASCII. -/
def pyCharLower (c : Char) : Char :=
  if 65 ≤ c.toNat ∧ c.toNat ≤ 90 then Char.ofNat (c.toNat + 32) else c

/-- Python str.lower (ASCII fragment). -/
def pyLower (s : String) : String := ⟨s.data.map pyCharLower⟩

/-- Code-point comparison of character lists, the order Python uses on str. -/
def charListLe : List Char → List Char → Bool
  | [], _ => true
  | _ :: _, [] => false
  | a :: as, b :: bs =>
    if a.toNat < b.toNat then true
    else if b.toNat < a.toNat then false
    else charListLe as bs

/-- Python string less-or-equal (code-point lexicographic). -/
def strLe (a b : String) : Bool := charListLe a.data b.data

/-- The ordering relation induced by strLe, used to state sortedness. -/
def strLeP (a b : String) : Prop := strLe a b = true

instance : DecidableRel strLeP := fun a b => inferInstanceAs (Decidable (_ = true))

/-- Python substring test: does haystack contain needle (cs contains pat)? -/
def charListContains (cs pat : List Char) : Bool :=
  match cs with
  | [] => pat.isEmpty
  | _ :: t => pat.isPrefixOf cs || charListContains t pat

/-- Python membership test sub in s on strings. -/
def pyContains (s sub : String) : Bool := charListContains s.data sub.data

/-- Python s.startswith(pre). -/
def pyStartsWith (s pre : String) : Bool := pre.data.isPrefixOf s.data

/-- Python str.isdigit on ASCII strings: nonempty and all characters digits. -/
def pyIsDigit (s : String) : Bool := !s.data.isEmpty && s.data.all Char.isDigit

/-- Numeric value of a digit string, the int() conversion applied by the code
after an isdigit check. -/
def digitsToNat (s : String) : Nat :=
  s.data.foldl (fun a c => a * 10 + (c.toNat - 48)) 0

/-- Python truthiness of a string: False exactly on the empty string. -/
def pyStrTruthy (s : String) : Bool := !s.data.isEmpty

/-- Python x or y for an optional string x and default y: the default is used
when x is None or empty (falsy). -/
def pyOrStr (x : Option String) (y : String) : String :=
  match x with
  | some s => if pyStrTruthy s then s else y
  | none => y

/-- Decimal digit character. -/
def digitChar (n : Nat) : Char := Char.ofNat (48 + n % 10)

/-- Decimal rendering of a natural number (str(n) in Python). -/
def natToStr (n : Nat) : String := ⟨Nat.toDigits 10 n⟩

/-- Two-digit zero-padded decimal field, as strftime %m %d %H %M %S %I. -/
def pad2 (n : Nat) : String := ⟨[digitChar (n / 10), digitChar n]⟩

/-- Four-digit zero-padded year field, as strftime %Y. -/
def pad4 (n : Nat) : String :=
  ⟨[digitChar (n / 1000), digitChar (n / 100), digitChar (n / 10), digitChar n]⟩

/-- Split a character list on a separator character (Python str.split(sep)). -/
def splitCharList (sep : Char) : List Char → List (List Char)
  | [] => [[]]
  | c :: cs =>
    let rest := splitCharList sep cs
    if c = sep then [] :: rest
    else
      match rest with
      | [] => [[c]]
      | r :: rs => (c :: r) :: rs

/-! ## Civil calendar arithmetic

Day numbers count days since 1970-01-01 in the proleptic Gregorian calendar
(the classical civil-from-days / days-from-civil algorithms). -/

/-- Day number of a civil date (days since 1970-01-01). -/
def daysFromCivil (y m d : Int) : Int :=
  let y2 : Int := if m ≤ 2 then y - 1 else y
  let era : Int := Int.fdiv y2 400
  let yoe : Int := y2 - era * 400
  let mp : Int := Int.emod (m + 9) 12
  let doy : Int := Int.fdiv (153 * mp + 2) 5 + d - 1
  let doe : Int := yoe * 365 + Int.fdiv yoe 4 - Int.fdiv yoe 100 + doy
  era * 146097 + doe - 719468

/-- Civil date (year, month, day) of a day number. -/
def civilFromDays (z0 : Int) : Int × Int × Int :=
  let z : Int := z0 + 719468
  let era : Int := Int.fdiv z 146097
  let doe : Int := z - era * 146097
  let yoe : Int := Int.fdiv (doe - Int.fdiv doe 1460 + Int.fdiv doe 36524 - Int.fdiv doe 146096) 365
  let y : Int := yoe + era * 400
  let doy : Int := doe - (365 * yoe + Int.fdiv yoe 4 - Int.fdiv yoe 100)
  let mp : Int := Int.fdiv (5 * doy + 2) 153
  let d : Int := doy - Int.fdiv (153 * mp + 2) 5 + 1
  let m : Int := if mp < 10 then mp + 3 else mp - 9
  (if m ≤ 2 then y + 1 else y, m, d)

/-- Day of week of a day number, 0 = Sunday (1970-01-01 was a Thursday). -/
def dayOfWeek (z : Int) : Int := Int.emod (z + 4) 7

/-- Gregorian leap-year test. -/
def isLeapYear (y : Int) : Bool :=
  (Int.emod y 4 = 0 && Int.emod y 100 != 0) || Int.emod y 400 = 0

/-- Number of days in a month, used to validate parsed civil dates the way
datetime construction validates them. -/
def daysInMonth (y m : Int) : Int :=
  if m = 2 then (if isLeapYear y then 29 else 28)
  else if m = 4 || m = 6 || m = 9 || m = 11 then 30
  else 31

/-- Day number of the first Sunday of a given month of a given year. -/
def firstSundayOf (y m : Int) : Int :=
  let z1 := daysFromCivil y m 1
  z1 + Int.emod (7 - dayOfWeek z1) 7

/-- Day number of the second Sunday of March (US spring-forward day). -/
def secondSundayMarch (y : Int) : Int := firstSundayOf y 3 + 7

/-- Day number of the first Sunday of November (US fall-back day). -/
def firstSundayNovember (y : Int) : Int := firstSundayOf y 11

/-! ## Datetime values and the Los Angeles conversions -/

/-- A civil datetime (naive or implicitly tagged by its use site). -/
structure PyDateTime where
  year : Int
  month : Int
  day : Int
  hour : Int
  minute : Int
  second : Int
deriving DecidableEq, Repr

/-- Minutes since 1970-01-01 00:00 of the civil fields (seconds dropped,
matching the minute-granularity uses in the source). -/
def PyDateTime.toMinutes (dt : PyDateTime) : Int :=
  daysFromCivil dt.year dt.month dt.day * 1440 + dt.hour * 60 + dt.minute

/-- Rebuild a civil datetime from a minutes count, carrying a seconds field. -/
def minutesToDateTime (t : Int) (sec : Int) : PyDateTime :=
  let z := Int.fdiv t 1440
  let rem := t - z * 1440
  let ymd := civilFromDays z
  ⟨ymd.1, ymd.2.1, ymd.2.2, Int.fdiv rem 60, Int.emod rem 60, sec⟩

/-- Year of the civil date of a minutes count. -/
def yearOfMinutes (t : Int) : Int := (civilFromDays (Int.fdiv t 1440)).1

/-- Is a UTC instant (in minutes since epoch) inside the US daylight-saving
window of its year?  DST runs from 10:00 UTC on the second Sunday of March
(02:00 PST) to 09:00 UTC on the first Sunday of November (02:00 PDT). -/
def dstActiveUtc (t : Int) : Bool :=
  let y := yearOfMinutes t
  secondSundayMarch y * 1440 + 10 * 60 ≤ t && t < firstSundayNovember y * 1440 + 9 * 60

/-- Resolution of a naive Los Angeles wall-clock time to a UTC offset under
the pytz localize default policy is_dst=False: the DST offset applies from
03:00 local on the second Sunday of March (the first wall time that exists
only as PDT) up to, but not including, 01:00 local on the first Sunday of
November (from which point the standard-time reading is preferred for the
ambiguous hour); nonexistent spring times 02:xx resolve to standard time. -/
def dstActiveLocalNaive (t : Int) : Bool :=
  let y := yearOfMinutes t
  secondSundayMarch y * 1440 + 3 * 60 ≤ t && t < firstSundayNovember y * 1440 + 1 * 60

/-- UTC-to-Los-Angeles projection of a UTC civil datetime
(datetime.astimezone applied to an aware UTC value). -/
def utcToLaDateTime (dt : PyDateTime) : PyDateTime :=
  let t := dt.toMinutes
  let offset : Int := if dstActiveUtc t then -7 * 60 else -8 * 60
  minutesToDateTime (t + offset) dt.second

/-- Los-Angeles-to-UTC conversion of a naive local civil datetime
(la_tz.localize followed by astimezone(pytz.UTC), is_dst=False policy). -/
def laNaiveToUtcDateTime (dt : PyDateTime) : PyDateTime :=
  let t := dt.toMinutes
  let offset : Int := if dstActiveLocalNaive t then 7 * 60 else 8 * 60
  minutesToDateTime (t + offset) dt.second

/-! ## Parsing (strptime and fromisoformat fragments used by the source) -/

/-- Are all characters decimal digits (and at least one present)? -/
def allDigits (cs : List Char) : Bool := !cs.isEmpty && cs.all Char.isDigit

/-- Numeric value of a digit character list. -/
def digitsVal (cs : List Char) : Int :=
  Int.ofNat (cs.foldl (fun a c => a * 10 + (c.toNat - 48)) 0)

/-- strptime %Y field: exactly four digits. -/
def parseYearField (cs : List Char) : Option Int :=
  if cs.length = 4 && allDigits cs then some (digitsVal cs) else none

/-- strptime one-or-two-digit numeric field constrained to a value range
(covers %m, %d, %H, %M). -/
def parseField2 (lo hi : Int) (cs : List Char) : Option Int :=
  if (cs.length = 1 || cs.length = 2) && allDigits cs then
    let v := digitsVal cs
    if lo ≤ v && v ≤ hi then some v else none
  else none

/-- Exactly-two-digit numeric field in a value range (fromisoformat fields). -/
def parseField2Strict (lo hi : Int) (cs : List Char) : Option Int :=
  if cs.length = 2 && allDigits cs then
    let v := digitsVal cs
    if lo ≤ v && v ≤ hi then some v else none
  else none

/-- datetime.strptime(date_str, "%Y-%m-%d"), including the calendar-day
validation datetime construction performs. -/
def parse_date (s : String) : Option (Int × Int × Int) :=
  match splitCharList (Char.ofNat 45) s.data with
  | [ys, ms, ds] =>
    match parseYearField ys, parseField2 1 12 ms, parseField2 1 31 ds with
    | some y, some m, some d => if d ≤ daysInMonth y m then some (y, m, d) else none
    | _, _, _ => none
  | _ => none

/-- datetime.strptime(time_str, "%H:%M"). -/
def parse_time (s : String) : Option (Int × Int) :=
  match splitCharList (Char.ofNat 58) s.data with
  | [hs, ms] =>
    match parseField2 0 23 hs, parseField2 0 59 ms with
    | some h, some mi => some (h, mi)
    | _, _ => none
  | _ => none

/-- Time-of-day part of datetime.fromisoformat: HH:MM, HH:MM:SS or
HH:MM:SS.ffffff with zero-padded two-digit fields (sub-second digits are
parsed and dropped, since nothing downstream reads microseconds). -/
def parseIsoTime (cs : List Char) : Option (Int × Int × Int) :=
  match splitCharList (Char.ofNat 58) cs with
  | [hs, ms] =>
    match parseField2Strict 0 23 hs, parseField2Strict 0 59 ms with
    | some h, some mi => some (h, mi, 0)
    | _, _ => none
  | [hs, ms, ss] =>
    match splitCharList (Char.ofNat 46) ss with
    | [sec] =>
      match parseField2Strict 0 23 hs, parseField2Strict 0 59 ms,
          parseField2Strict 0 59 sec with
      | some h, some mi, some se => some (h, mi, se)
      | _, _, _ => none
    | [sec, frac] =>
      match parseField2Strict 0 23 hs, parseField2Strict 0 59 ms,
          parseField2Strict 0 59 sec with
      | some h, some mi, some se =>
        if allDigits frac && frac.length ≤ 6 then some (h, mi, se) else none
      | _, _, _ => none
    | _ => none
  | _ => none

/-- Date part of datetime.fromisoformat: YYYY-MM-DD, zero-padded. -/
def parseIsoDate (cs : List Char) : Option (Int × Int × Int) :=
  match splitCharList (Char.ofNat 45) cs with
  | [ys, ms, ds] =>
    match parseYearField ys, parseField2Strict 1 12 ms, parseField2Strict 1 31 ds with
    | some y, some m, some d => if d ≤ daysInMonth y m then some (y, m, d) else none
    | _, _, _ => none
  | _ => none

/-- datetime.fromisoformat on a timezone-naive timestamp string: a date,
optionally followed by a T separator and a time of day.  (The source only
ever feeds this UTC timestamps whose offset suffix it has already handled;
separators other than T are outside the modelled fragment.) -/
def parseIsoNaive (s : String) : Option PyDateTime :=
  match splitCharList (Char.ofNat 84) s.data with
  | [dcs] =>
    (parseIsoDate dcs).map fun ymd => ⟨ymd.1, ymd.2.1, ymd.2.2, 0, 0, 0⟩
  | [dcs, tcs] =>
    match parseIsoDate dcs, parseIsoTime tcs with
    | some ymd, some hms => some ⟨ymd.1, ymd.2.1, ymd.2.2, hms.1, hms.2.1, hms.2.2⟩
    | _, _ => none
  | _ => none

/-- Python s.endswith(suf). -/
def pyEndsWith (s suf : String) : Bool := suf.data.isSuffixOf s.data

/-- Drop the last n characters of a string. -/
def strDropRight (s : String) (n : Nat) : String :=
  ⟨s.data.take (s.data.length - n)⟩

/-! ## The two timezone conversion helpers of calendar_functions.py -/

/-- convert_utc_to_la: parse a UTC timestamp (with trailing Z, with an
explicit +00:00 offset via the fallback branch, or naive, in which case it is
treated as UTC) and project it into America/Los_Angeles.  Returns none where
the Python function raises out of its fallback branch (unparseable input). -/
def convert_utc_to_la (utc_time_str : String) : Option PyDateTime :=
  let core :=
    if pyEndsWith utc_time_str "Z" then strDropRight utc_time_str 1
    else if pyEndsWith utc_time_str "+00:00" then strDropRight utc_time_str 6
    else utc_time_str
  (parseIsoNaive core).map utcToLaDateTime

/-- convert_la_to_utc: strptime the civil date and time, localize in
America/Los_Angeles (pytz is_dst=False policy) and render the UTC instant as
YYYY-MM-DDTHH:MM:SSZ.  Returns none where strptime raises. -/
def convert_la_to_utc (date_str time_str : String) : Option String :=
  match parse_date date_str, parse_time time_str with
  | some ymd, some hm =>
    let utc := laNaiveToUtcDateTime ⟨ymd.1, ymd.2.1, ymd.2.2, hm.1, hm.2, 0⟩
    some (pad4 utc.year.toNat ++ "-" ++ pad2 utc.month.toNat ++ "-" ++
      pad2 utc.day.toNat ++ "T" ++ pad2 utc.hour.toNat ++ ":" ++
      pad2 utc.minute.toNat ++ ":" ++ pad2 utc.second.toNat ++ "Z")
  | _, _ => none

/-! ## strftime renderings used by the tools -/

/-- strftime %Y-%m-%d. -/
def fmtYmd (dt : PyDateTime) : String :=
  pad4 dt.year.toNat ++ "-" ++ pad2 dt.month.toNat ++ "-" ++ pad2 dt.day.toNat

/-- strftime %H:%M. -/
def fmtHM (dt : PyDateTime) : String :=
  pad2 dt.hour.toNat ++ ":" ++ pad2 dt.minute.toNat

/-- Twelve-hour clock field %I (zero-padded, 12 for 0). -/
def hour12 (h : Int) : Nat :=
  let r := (Int.emod h 12).toNat
  if r = 0 then 12 else r

/-- Meridiem field %p. -/
def meridiem (h : Int) : String := if h < 12 then "AM" else "PM"

/-- strftime %I:%M %p, the local time display format of the tools. -/
def fmtIMp (dt : PyDateTime) : String :=
  pad2 (hour12 dt.hour) ++ ":" ++ pad2 dt.minute.toNat ++ " " ++ meridiem dt.hour

/-- strftime %I%p, the compact hour token of the cancel scan. -/
def fmtIp (dt : PyDateTime) : String :=
  pad2 (hour12 dt.hour) ++ meridiem dt.hour

/-- strftime %B month names. -/
def monthName (m : Int) : String :=
  if m = 1 then "January" else if m = 2 then "February"
  else if m = 3 then "March" else if m = 4 then "April"
  else if m = 5 then "May" else if m = 6 then "June"
  else if m = 7 then "July" else if m = 8 then "August"
  else if m = 9 then "September" else if m = 10 then "October"
  else if m = 11 then "November" else "December"

/-- strftime %B %d at %I:%M %p, the cancel not-found listing format. -/
def fmtBdAtIMp (dt : PyDateTime) : String :=
  monthName dt.month ++ " " ++ pad2 dt.day.toNat ++ " at " ++ fmtIMp dt

/-- strftime %B %d, %Y at %I:%M %p, the long display format. -/
def fmtBdYAtIMp (dt : PyDateTime) : String :=
  monthName dt.month ++ " " ++ pad2 dt.day.toNat ++ ", " ++ pad4 dt.year.toNat ++
    " at " ++ fmtIMp dt

/-! ## Data model (calcom_client.py record shapes)

The eventType dictionary carried by the source Booking model is read by no
tool and is omitted from the embedding. -/

/-- One attendee record (a dict with optional name and email keys). -/
structure Attendee where
  name : Option String
  email : Option String
deriving DecidableEq, Repr

/-- AvailableSlot model of calcom_client.py. -/
structure AvailableSlot where
  time : String
  attendees : Nat
  bookingUid : Option String
deriving DecidableEq, Repr

/-- Booking model of calcom_client.py. -/
structure Booking where
  id : Nat
  uid : Option String
  title : String
  description : Option String
  startTime : String
  endTime : String
  attendees : List Attendee
  status : String
deriving DecidableEq, Repr

/-- BookingRequest fields read back by create_booking (its outbound-only
serialization fields are not modelled). -/
structure BookingRequest where
  eventTypeId : Nat
  start : String
  attendee : Attendee
  title : Option String
  description : Option String
  endField : Option String
deriving DecidableEq, Repr

/-! ## Scheduling API client boundary (calcom_client.py)

Each client method is modelled as a function of the outcome of its
_make_request call: either a transport/decoding failure (the CalcomAPIError
raised inside _make_request) or the decoded response data in the shape the
method reads.  The return type is Except String so that the methods that
raise CalcomAPIError and the methods that swallow failures can be compared;
the String carries the CalcomAPIError message. -/

/-- Failure of _make_request: a requests exception or a JSON decode error. -/
inductive ReqError where
  | requestFailed (msg : String)
  | jsonDecode (msg : String)
deriving DecidableEq, Repr

/-- Message of the CalcomAPIError that _make_request raises. -/
def ReqError.message : ReqError → String
  | .requestFailed m => "API request failed: " ++ m
  | .jsonDecode m => "Failed to parse API response: " ++ m

/-- A booking as decoded from JSON: every key optional, v2 keys start and
end beside v1 keys startTime and endTime. -/
structure BookingJson where
  idJ : Option Nat
  uidJ : Option String
  titleJ : Option String
  descriptionJ : Option String
  startJ : Option String
  startTimeJ : Option String
  endJ : Option String
  endTimeJ : Option String
  attendeesJ : Option (List Attendee)
  statusJ : Option String
deriving DecidableEq, Repr

/-- Response body read by the client cancel method: optional status and
success keys. -/
structure CancelResponseJson where
  status : Option String
  success : Option Bool
deriving DecidableEq, Repr

namespace CalcomClient

/-- map_booking_v2_to_model: map a decoded booking (v2 start and end keys,
falling back to startTime and endTime under Python or-semantics) into the
Booking model, defaulting every missing key as the source does. -/
def map_booking_v2_to_model (b : BookingJson) : Booking :=
  { id := b.idJ.getD 0
    uid := b.uidJ
    title := b.titleJ.getD ""
    description := b.descriptionJ
    startTime := pyOrStr b.startJ (b.startTimeJ.getD "")
    endTime := pyOrStr b.endJ (b.endTimeJ.getD "")
    attendees := b.attendeesJ.getD []
    status := b.statusJ.getD "" }

/-- get_available_slots: on any failure return the empty list (the source
catches every exception and returns []); on success flatten the per-date
lists, keeping only items that are dicts with a start key, in response
order.  A date entry of none stands for a value that is not a list and is
skipped by the isinstance check. -/
def get_available_slots
    (resp : Except ReqError (List (String × Option (List (Option String))))) :
    Except String (List AvailableSlot) :=
  match resp with
  | .error _ => .ok []
  | .ok data =>
    .ok (data.foldl
      (fun acc e =>
        match e.2 with
        | none => acc
        | some items =>
          acc ++ items.filterMap (fun it => it.map (fun t => ⟨t, 1, none⟩)))
      [])

/-- create_booking: a failure of _make_request is re-raised as a
CalcomAPIError wrapping the cause; an empty data object falls back to a
synthesized Booking built from the request. -/
def create_booking (req : BookingRequest)
    (resp : Except ReqError (Option BookingJson)) : Except String Booking :=
  match resp with
  | .error e => .error ("Failed to create booking: " ++ e.message)
  | .ok (some bj) => .ok (map_booking_v2_to_model bj)
  | .ok none =>
    .ok ⟨0, none, pyOrStr req.title "Meeting", req.description, req.start,
      pyOrStr req.endField req.start, [req.attendee], "confirmed"⟩

/-- get_bookings: on any failure return the empty list (exception caught);
on success map each decoded booking through map_booking_v2_to_model. -/
def get_bookings (resp : Except ReqError (List BookingJson)) :
    Except String (List Booking) :=
  match resp with
  | .error _ => .ok []
  | .ok data => .ok (data.map map_booking_v2_to_model)

/-- cancel_booking: on any failure return false (exception caught); on
success report whether status is success, defaulting a missing success key
to true. -/
def cancel_booking (resp : Except ReqError CancelResponseJson) :
    Except String Bool :=
  match resp with
  | .error _ => .ok false
  | .ok r => .ok (decide (r.status = some "success") || r.success.getD true)

/-- reschedule_booking: on any failure return none (exception caught); an
empty data object also yields none. -/
def reschedule_booking (resp : Except ReqError (Option BookingJson)) :
    Except String (Option Booking) :=
  match resp with
  | .error _ => .ok none
  | .ok none => .ok none
  | .ok (some bj) => .ok (some (map_booking_v2_to_model bj))

end CalcomClient

/-! ## Booking-identifier resolution (cancel_booking and reschedule_booking
in calendar_functions.py) -/

/-- Python truthiness of an optional string (None and the empty string are
falsy). -/
def pyOptStrTruthy : Option String → Bool
  | none => false
  | some s => pyStrTruthy s

/-- Shared first phase of identifier resolution: an all-digits identifier is
matched exactly against the numeric booking ids, any other identifier is
matched exactly against the booking UIDs; the first hit in list order wins. -/
def resolveByIdOrUid (bookings : List Booking) (booking_identifier : String) :
    Option Booking :=
  if pyIsDigit booking_identifier then
    bookings.find? (fun b => b.id == digitsToNat booking_identifier)
  else
    bookings.find? (fun b => decide (b.uid = some booking_identifier))

/-- Per-booking test of the cancel fallback scan, in source order: title
substring, then inside a try block the compact hour+meridiem or local date
substrings, then the today and tomorrow checks; a booking whose start time
fails to convert only passes the title check.  today_la is the current Los
Angeles civil date as a day number. -/
def cancelScanMatch (today_la : Int) (identifier_lower : String) (b : Booking) :
    Bool :=
  if pyContains (pyLower b.title) identifier_lower then true
  else
    match convert_utc_to_la b.startTime with
    | none => false
    | some la =>
      let time_str := pyLower (fmtIp la)
      let date_str := fmtYmd la
      if pyContains identifier_lower time_str || pyContains identifier_lower date_str then
        true
      else if pyContains identifier_lower "today" &&
          daysFromCivil la.year la.month la.day == today_la then
        true
      else if pyContains identifier_lower "tomorrow" &&
          daysFromCivil la.year la.month la.day == today_la + 1 then
        true
      else false

/-- Identifier resolution of cancel_booking: id or UID first, then the
first booking of the fallback scan. -/
def resolveCancelIdentifier (today_la : Int) (bookings : List Booking)
    (booking_identifier : String) : Option Booking :=
  match resolveByIdOrUid bookings booking_identifier with
  | some b => some b
  | none => bookings.find? (cancelScanMatch today_la (pyLower booking_identifier))

/-- Identifier resolution of reschedule_booking: id or UID first, then a
fallback scan that only checks the case-insensitive title substring. -/
def resolveRescheduleIdentifier (bookings : List Booking)
    (booking_identifier : String) : Option Booking :=
  match resolveByIdOrUid bookings booking_identifier with
  | some b => some b
  | none =>
    bookings.find? (fun b => pyContains (pyLower b.title) (pyLower booking_identifier))

/-! ## The cancel tool (calendar_functions.cancel_booking) -/

/-- Result of the cancel tool; every constructor is a return statement of the
source, and the error constructor is the outer exception handler (the only
uncaught exception inside the body is the start-time conversion inside the
not-found listing). -/
inductive CancelResult where
  | noBookings
  | notFound (identifier : String) (listing : List String)
  | cannotCancel (id : Nat)
  | cancelled (title whenLocal : String) (id : Nat) (uid reason : String)
  | cancelFailed (uid : String)
  | error (msg : String)
deriving DecidableEq, Repr

/-- One line of the not-found listing; none where the start-time conversion
raises. -/
def notFoundLine (b : Booking) : Option String :=
  (convert_utc_to_la b.startTime).map fun la =>
    "- " ++ b.title ++ " (ID: " ++ natToStr b.id ++ ", UID: " ++
      pyOrStr b.uid "N/A" ++ ") - " ++ fmtBdAtIMp la ++ " (PT)"

/-- cancel_booking tool.  bookings is what the client returned,
cancelApiSuccess the boolean the client cancel call would return; the
cancellation call is made exactly in the branches whose result reads
cancelApiSuccess. -/
def cancel_booking (today_la : Int) (bookings : List Booking)
    (cancelApiSuccess : Bool) (booking_identifier reason : String) : CancelResult :=
  if bookings.isEmpty then .noBookings
  else
    match resolveCancelIdentifier today_la bookings booking_identifier with
    | none =>
      match bookings.mapM notFoundLine with
      | none => .error "Error canceling booking"
      | some listing => .notFound booking_identifier listing
    | some b =>
      match b.uid with
      | none => .cannotCancel b.id
      | some u =>
        if !pyStrTruthy u then .cannotCancel b.id
        else if cancelApiSuccess then
          match convert_utc_to_la b.startTime with
          | none => .error "Error canceling booking"
          | some la => .cancelled b.title (fmtBdYAtIMp la) b.id u reason
        else .cancelFailed u

/-! ## The book tool (calendar_functions.book_meeting) and the shared
availability check (also performed by reschedule_booking) -/

/-- The minute-precision key the availability check compares against: the
requested civil date and time re-rendered by strftime %Y-%m-%dT%H:%M.  Note
this is the naive local wall time, not its UTC conversion. -/
def minuteKey (ymd : Int × Int × Int) (hm : Int × Int) : String :=
  pad4 ymd.1.toNat ++ "-" ++ pad2 ymd.2.1.toNat ++ "-" ++ pad2 ymd.2.2.toNat ++
    "T" ++ pad2 hm.1.toNat ++ ":" ++ pad2 hm.2.toNat

/-- The requested_time_matches list comprehension of book_meeting (and the
identical new_time_matches of reschedule_booking): the slots whose time
string starts with the minute key; none where strptime raises. -/
def requested_time_matches (available_slots : List AvailableSlot)
    (date_str time_str : String) : Option (List AvailableSlot) :=
  match parse_date date_str, parse_time time_str with
  | some ymd, some hm =>
    some (available_slots.filter fun slot => pyStartsWith slot.time (minuteKey ymd hm))
  | _, _ => none

/-- The available-times block shared by book_meeting and reschedule_booking:
take the first five slots in API order, convert each to Los Angeles time and
format %I:%M %p, silently skipping any slot whose time fails to convert. -/
def available_times_la (available_slots : List AvailableSlot) : List String :=
  (available_slots.take 5).filterMap fun slot =>
    (convert_utc_to_la slot.time).map fmtIMp

/-- Result of the book tool; each constructor is a return statement of the
source, error the outer exception handler. -/
inductive BookResult where
  | unavailable (time date : String) (available_times : List String)
  | noSlots (date : String)
  | booked (title whenDisplay attendee_name attendee_email : String)
      (id : Nat) (uid : Option String)
  | error (msg : String)
deriving DecidableEq, Repr

/-- book_meeting tool.  available_slots is what the client returned for the
requested date, createResult the outcome of the create_booking client call
(reached only when the availability check passes). -/
def book_meeting (available_slots : List AvailableSlot)
    (createResult : Except String Booking)
    (date time title attendee_name attendee_email description : String) :
    BookResult :=
  match parse_date date, parse_time time with
  | some ymd, some hm =>
    let matchList := available_slots.filter fun slot =>
      pyStartsWith slot.time (minuteKey ymd hm)
    if matchList.isEmpty then
      if !available_slots.isEmpty then
        let available_times := available_times_la available_slots
        if !available_times.isEmpty then .unavailable time date available_times
        else .noSlots date
      else .noSlots date
    else
      match createResult with
      | .error e => .error ("Error booking meeting: " ++ e)
      | .ok booking =>
        .booked booking.title (fmtBdYAtIMp ⟨ymd.1, ymd.2.1, ymd.2.2, hm.1, hm.2, 0⟩)
          attendee_name attendee_email booking.id booking.uid
  | _, _ => .error "Error booking meeting"

/-! ## The list tool (calendar_functions.list_bookings) -/

/-- Upper-case a single ASCII character. -/
def pyCharUpper (c : Char) : Char :=
  if 97 ≤ c.toNat ∧ c.toNat ≤ 122 then Char.ofNat (c.toNat - 32) else c

/-- Python str.title character recursion: a letter after a non-letter is
upper-cased, a letter after a letter lower-cased. -/
def titleCaseChars : List Char → Bool → List Char
  | [], _ => []
  | c :: cs, prevAlpha =>
    (if c.isAlpha then (if prevAlpha then pyCharLower c else pyCharUpper c) else c) ::
      titleCaseChars cs c.isAlpha

/-- Python str.title (ASCII fragment). -/
def pyTitleCase (s : String) : String := ⟨titleCaseChars s.data false⟩

/-- Python sep.join. -/
def joinSep (sep : String) : List String → String
  | [] => ""
  | [x] => x
  | x :: xs => x ++ sep ++ joinSep sep xs

/-- Python str.strip of leading and trailing whitespace. -/
def isSpaceChar (c : Char) : Bool := c = ' ' || c = '\n' || c = '\t' || c = '\r'

/-- Python str.strip. -/
def pyStrip (s : String) : String :=
  ⟨((s.data.dropWhile isSpaceChar).reverse.dropWhile isSpaceChar).reverse⟩

/-- One attendee as formatted inline by list_bookings. -/
def attendeeLine (a : Attendee) : String :=
  a.name.getD "Unknown" ++ " (" ++ a.email.getD "No email" ++ ")"

/-- The per-booking block of list_bookings; the fallback line is the per-
booking exception handler, reached when either timestamp fails to convert. -/
def bookingBlock (b : Booking) : String :=
  match convert_utc_to_la b.startTime, convert_utc_to_la b.endTime with
  | some s, some e =>
    "**" ++ b.title ++ "** (ID: " ++ natToStr b.id ++ ", UID: " ++
      pyOrStr b.uid "N/A" ++ ")\n" ++
    "- **Date & Time:** " ++ fmtBdYAtIMp s ++ " - " ++ fmtIMp e ++ " (PT)\n" ++
    "- **Status:** " ++ pyTitleCase b.status ++ "\n" ++
    "- **Attendees:** " ++ joinSep ", " (b.attendees.map attendeeLine) ++ "\n" ++
    "- **Description:** " ++ pyOrStr b.description "No description" ++ "\n\n"
  | _, _ =>
    "**" ++ b.title ++ "** (ID: " ++ natToStr b.id ++ ", UID: " ++
      pyOrStr b.uid "N/A" ++ ") - Error parsing time details\n\n"

/-- Sort key order of the bookings sort: ascending UTC start string. -/
def bookingStartLe (a b : Booking) : Prop := strLeP a.startTime b.startTime

instance : DecidableRel bookingStartLe := fun a b => inferInstanceAs (Decidable (_ = true))

/-- list_bookings tool.  The user_email argument is accepted (it is part of
the tool schema) and, as in the source body, never read. -/
def list_bookings (user_email : Option String) (bookings : List Booking) : String :=
  if bookings.isEmpty then "No scheduled meetings found."
  else
    let sorted := List.insertionSort bookingStartLe bookings
    pyStrip ((sorted.map bookingBlock).foldl (· ++ ·) "**Your Scheduled Meetings:**\n\n")

/-! ## The get-available-slots tool (calendar_functions.get_available_slots) -/

/-- Append one formatted time under its date key, preserving dict insertion
order of keys and list append order of values. -/
def addSlotToGroups : List (String × List String) → String → String →
    List (String × List String)
  | [], d, t => [(d, [t])]
  | (k, ts) :: rest, d, t =>
    if k = d then (k, ts ++ [t]) :: rest else (k, ts) :: addSlotToGroups rest d t

/-- One loop iteration of the grouping: convert the slot, skip it when the
conversion raises, otherwise file its formatted time under its local date. -/
def slotStep (gs : List (String × List String)) (slot : AvailableSlot) :
    List (String × List String) :=
  match convert_utc_to_la slot.time with
  | none => gs
  | some la => addSlotToGroups gs (fmtYmd la) (fmtIMp la)

/-- The slots_by_date dict: group the convertible slots by Los Angeles civil
date, skipping slots whose time fails to convert. -/
def buildGroups (available_slots : List AvailableSlot) : List (String × List String) :=
  available_slots.foldl slotStep []

/-- Dict lookup on the association list. -/
def lookupGroup : List (String × List String) → String → List String
  | [], _ => []
  | p :: rest, d => if p.1 = d then p.2 else lookupGroup rest d

/-- Python sorted on strings. -/
def sortStrings (l : List String) : List String := List.insertionSort strLeP l

/-- The iteration order of the response body: dates sorted ascending, and
within each date the formatted time strings sorted ascending, both by the
plain string order Python sorted applies. -/
def slots_by_date_sorted (available_slots : List AvailableSlot) :
    List (String × List String) :=
  let gs := buildGroups available_slots
  (sortStrings (gs.map Prod.fst)).map fun d => (d, sortStrings (lookupGroup gs d))

/-- Result of the get-available-slots tool; each constructor is a return
statement of the source. -/
inductive SlotsResult where
  | noSlotsSingle (date : String)
  | noSlotsRange (date end_date : String)
  | noValid
  | listing (date end_date : String) (groups : List (String × List String))
deriving DecidableEq, Repr

/-- get_available_slots tool.  env is the client slots query as a function of
the start and end date it is called with (the event type is fixed). -/
def get_available_slots (env : String → String → List AvailableSlot)
    (date end_date : String) : SlotsResult :=
  let end_date2 := if pyStrTruthy end_date then end_date else date
  let available_slots := env date end_date2
  if available_slots.isEmpty then
    if date = end_date2 then .noSlotsSingle date else .noSlotsRange date end_date2
  else
    let groups := slots_by_date_sorted available_slots
    if groups.isEmpty then .noValid
    else .listing date end_date2 groups

/-! ## Specification-side definitions used by the refinement statements -/

/-- The cancel fallback scan as the amended specification words it: the
first booking, in list order, satisfying (a) case-insensitive title
substring, or — when the start time converts — (b) the zero-padded local
hour+meridiem token (for example 03pm) or the local start date YYYY-MM-DD
being a substring of the identifier, (c) the identifier containing today
with the booking on the current local date, (d) the identifier containing
tomorrow with the booking on the next local date. -/
def cancelScanMatchSpec (today_la : Int) (identifier : String) (b : Booking) :
    Bool :=
  pyContains (pyLower b.title) (pyLower identifier) ||
    match convert_utc_to_la b.startTime with
    | none => false
    | some la =>
      pyContains (pyLower identifier) (pyLower (fmtIp la)) ||
      pyContains (pyLower identifier) (fmtYmd la) ||
      (pyContains (pyLower identifier) "today" &&
        daysFromCivil la.year la.month la.day == today_la) ||
      (pyContains (pyLower identifier) "tomorrow" &&
        daysFromCivil la.year la.month la.day == today_la + 1)

/-- The formatted local times of the slots whose Los Angeles civil date is
d, in API order — the specification-side description of one date group of
the slots listing. -/
def groupTimes (available_slots : List AvailableSlot) (d : String) : List String :=
  ((available_slots.filterMap fun slot => convert_utc_to_la slot.time).filter
    fun la => decide (fmtYmd la = d)).map fmtIMp

/-! ## Concrete fixtures used by witnesses and counterexamples -/

/-- A slot list long enough to exercise the five-slot cap, with one
unconvertible entry among the first five. -/
def manySlots : List AvailableSlot :=
  [⟨"2025-08-26T15:00:00Z", 1, none⟩, ⟨"2025-08-26T15:30:00Z", 1, none⟩,
   ⟨"garbage", 1, none⟩, ⟨"2025-08-26T16:30:00Z", 1, none⟩,
   ⟨"2025-08-26T17:00:00Z", 1, none⟩, ⟨"2025-08-26T17:30:00Z", 1, none⟩]

/-- A booking whose Los Angeles start time is 3:00 PM on 2025-08-26. -/
def bkStandup : Booking :=
  ⟨1, some "uid-standup", "Standup", none,
    "2025-08-26T22:00:00Z", "2025-08-26T22:30:00Z", [], "accepted"⟩

/-- A booking titled 1pm sync whose Los Angeles start time is 1:00 PM on
2025-08-26. -/
def bkOnePmSync : Booking :=
  ⟨2, some "uid-sync", "1pm sync", none,
    "2025-08-26T20:00:00Z", "2025-08-26T20:30:00Z", [], "accepted"⟩

/-- A booking with no UID. -/
def bkNoUid : Booking :=
  ⟨5, none, "Planning", none,
    "2025-08-27T16:00:00Z", "2025-08-27T16:30:00Z", [], "accepted"⟩

/-- A booking whose timestamps do not parse. -/
def bkBadTime : Booking :=
  ⟨7, some "uid-bad", "Retro", none, "garbage", "garbage", [], "accepted"⟩

/-- The Los Angeles civil date 2025-08-26 as a day number (the role of
datetime.now(la_tz).date() in the fixtures). -/
def day0 : Int := daysFromCivil 2025 8 26

/-- A booking request fixture. -/
def reqFixture : BookingRequest :=
  ⟨3161359, "2025-08-26T22:00:00Z", ⟨some "Ada", some "ada@example.com"⟩, none, none, none⟩

/-! ## Order facts about the embedded string comparison -/

/-- Characterization of the code-point comparison on nonempty lists. -/
theorem charListLe_cons_iff (a b : Char) (as bs : List Char) :
    charListLe (a :: as) (b :: bs) = true ↔
      a.toNat < b.toNat ∨ (a.toNat = b.toNat ∧ charListLe as bs = true) := by
  simp only [charListLe]
  by_cases h1 : a.toNat < b.toNat
  · simp [h1]
  · by_cases h2 : b.toNat < a.toNat
    · have hne : a.toNat ≠ b.toNat := by omega
      simp [h1, h2, hne]
    · have he : a.toNat = b.toNat := by omega
      simp [h1, h2, he]

/-- The comparison is total. -/
theorem charListLe_total : ∀ x y : List Char,
    charListLe x y = true ∨ charListLe y x = true := by
  intro x
  induction x with
  | nil => intro y; left; rfl
  | cons a as ih =>
    intro y
    cases y with
    | nil => right; rfl
    | cons b bs =>
      rw [charListLe_cons_iff, charListLe_cons_iff]
      rcases Nat.lt_trichotomy a.toNat b.toNat with h | h | h
      · left; left; exact h
      · rcases ih bs with h2 | h2
        · left; right; exact ⟨h, h2⟩
        · right; right; exact ⟨h.symm, h2⟩
      · right; left; exact h

/-- The comparison is transitive. -/
theorem charListLe_trans : ∀ x y z : List Char, charListLe x y = true →
    charListLe y z = true → charListLe x z = true := by
  intro x
  induction x with
  | nil => intro y z h1 h2; rfl
  | cons a as ih =>
    intro y z h1 h2
    cases y with
    | nil => simp [charListLe] at h1
    | cons b bs =>
      cases z with
      | nil => simp [charListLe] at h2
      | cons c cs =>
        rw [charListLe_cons_iff] at h1 h2 ⊢
        rcases h1 with h1 | ⟨he1, hr1⟩ <;> rcases h2 with h2 | ⟨he2, hr2⟩
        · left; omega
        · left; omega
        · left; omega
        · right; exact ⟨by omega, ih bs cs hr1 hr2⟩

instance : IsTotal String strLeP := ⟨fun a b => charListLe_total a.data b.data⟩

instance : IsTrans String strLeP :=
  ⟨fun a b c => charListLe_trans a.data b.data c.data⟩

/-- find? is determined by the pointwise behaviour of its predicate. -/
theorem find?_congr_pred {α : Type} (p q : α → Bool) (h : ∀ a, p a = q a) :
    ∀ l : List α, l.find? p = l.find? q := by
  intro l
  induction l with
  | nil => rfl
  | cons a t ih =>
    by_cases hq : q a = true
    · rw [List.find?_cons_of_pos _ ((h a).trans hq), List.find?_cons_of_pos _ hq]
    · rw [List.find?_cons_of_neg, List.find?_cons_of_neg, ih]
      · simpa using hq
      · rw [h a]; simpa using hq

/-- A successful Option mapM has the length of its input. -/
theorem mapM_option_length {α β : Type} (f : α → Option β) :
    ∀ (l : List α) (L : List β), l.mapM f = some L → L.length = l.length := by
  intro l
  induction l with
  | nil =>
    intro L h
    simp only [List.mapM_nil, pure, Option.some.injEq] at h
    rw [← h]
    rfl
  | cons a t ih =>
    intro L h
    simp only [List.mapM_cons, pure, Option.bind_eq_bind, Option.bind_eq_some,
      Option.some.injEq] at h
    obtain ⟨b, _, l2, hl2, hL⟩ := h
    rw [← hL]
    simp [ih l2 hl2]

/-! ## C1: the availability check of book and reschedule -/

/-- C1: the claim reads that a slot matches iff its UTC instant equals the
requested UTC instant at minute precision.  The code instead compares the
slot time string against the naive local wall time re-rendered at minute
precision.  At the claim's own example instant: the request 2025-08-26 08:00
(Los Angeles) converts to exactly the slot instant 2025-08-26T15:00:00Z, yet
the match list is empty and the tool answers unavailable; conversely the
request 15:00, whose UTC instant is 22:00Z and differs from the slot, is the
one the code matches. -/
theorem book_availability_check_uses_local_not_utc :
    convert_la_to_utc "2025-08-26" "08:00" = some "2025-08-26T15:00:00Z" ∧
    requested_time_matches [⟨"2025-08-26T15:00:00Z", 1, none⟩]
      "2025-08-26" "08:00" = some [] ∧
    book_meeting [⟨"2025-08-26T15:00:00Z", 1, none⟩] (.error "unused")
      "2025-08-26" "08:00" "Sync" "Ada" "ada@example.com" "" =
      .unavailable "08:00" "2025-08-26" ["08:00 AM"] ∧
    convert_la_to_utc "2025-08-26" "15:00" = some "2025-08-26T22:00:00Z" ∧
    requested_time_matches [⟨"2025-08-26T15:00:00Z", 1, none⟩]
      "2025-08-26" "15:00" = some [⟨"2025-08-26T15:00:00Z", 1, none⟩] := by
  refine ⟨by decide, by decide, by decide, by decide, by decide⟩

/-! ## C4: how the client surfaces transport and decoding failures -/

/-- C4 counterexample: a transport failure in the slots query is returned as
the empty slot list, indistinguishable from a genuinely empty response, and
the bookings, cancel and reschedule calls likewise return normal-looking
values instead of an error. -/
theorem client_failures_swallowed_counterexample :
    CalcomClient.get_available_slots (.error (.requestFailed "connection refused")) =
      .ok [] ∧
    CalcomClient.get_available_slots (.ok []) = .ok [] ∧
    CalcomClient.get_bookings (.error (.requestFailed "connection refused")) = .ok [] ∧
    CalcomClient.cancel_booking (.error (.requestFailed "connection refused")) =
      .ok false ∧
    CalcomClient.reschedule_booking (.error (.requestFailed "connection refused")) =
      .ok none :=
  ⟨rfl, rfl, rfl, rfl, rfl⟩

/-- C4 amended: only create_booking re-raises a transport or decoding
failure as a CalcomAPIError wrapping the cause; the slots query and the
bookings query swallow the failure into an empty list, cancel into false,
reschedule into none. -/
theorem client_failure_surface_behavior (e : ReqError) (req : BookingRequest) :
    CalcomClient.get_available_slots (.error e) = .ok [] ∧
    CalcomClient.get_bookings (.error e) = .ok [] ∧
    CalcomClient.cancel_booking (.error e) = .ok false ∧
    CalcomClient.reschedule_booking (.error e) = .ok none ∧
    CalcomClient.create_booking req (.error e) =
      .error ("Failed to create booking: " ++ e.message) :=
  ⟨rfl, rfl, rfl, rfl, rfl⟩

/-- C4 witness at a concrete decoding failure. -/
theorem client_failure_surface_behavior_witness :
    CalcomClient.create_booking reqFixture (.error (.jsonDecode "bad json")) =
      .error ("Failed to create booking: " ++ (ReqError.jsonDecode "bad json").message) :=
  (client_failure_surface_behavior (.jsonDecode "bad json") reqFixture).2.2.2.2

/-! ## C5: behaviour on ambiguous and nonexistent local times -/

/-- C5 counterexample: 2025-11-02 01:30 is ambiguous in Los Angeles (it
exists as 08:30Z under PDT and 09:30Z under PST) and 2025-03-09 02:30 does
not exist; the conversion raises no error on either, silently resolving both
to the standard-time offset as pytz localize does with is_dst=False. -/
theorem dst_ambiguous_silent_counterexample :
    convert_la_to_utc "2025-11-02" "01:30" = some "2025-11-02T09:30:00Z" ∧
    convert_la_to_utc "2025-03-09" "02:30" = some "2025-03-09T10:30:00Z" := by
  exact ⟨by decide, by decide⟩

/-- C5 amended: the conversion never fails on a well-formed date and time,
ambiguous and nonexistent instants included. -/
theorem convert_la_to_utc_total_on_wellformed (date_str time_str : String)
    (hd : (parse_date date_str).isSome = true)
    (ht : (parse_time time_str).isSome = true) :
    (convert_la_to_utc date_str time_str).isSome = true := by
  unfold convert_la_to_utc
  cases hpd : parse_date date_str with
  | none => rw [hpd] at hd; simp at hd
  | some ymd =>
    cases hpt : parse_time time_str with
    | none => rw [hpt] at ht; simp at ht
    | some hm => rfl

/-- C5 witness at the ambiguous instant. -/
theorem convert_la_to_utc_total_on_wellformed_witness :
    (convert_la_to_utc "2025-11-02" "01:30").isSome = true :=
  convert_la_to_utc_total_on_wellformed "2025-11-02" "01:30" (by decide) (by decide)

/-! ## C6: all-digits identifiers resolve by numeric id first -/

/-- C6: when the identifier is all digits, the first booking whose numeric
id equals its value is returned, before any substring or time heuristic is
consulted. -/
theorem digit_identifier_id_precedence (today_la : Int) (bookings : List Booking)
    (ident : String) (b : Booking)
    (hdigit : pyIsDigit ident = true)
    (hfind : bookings.find? (fun x => x.id == digitsToNat ident) = some b) :
    resolveCancelIdentifier today_la bookings ident = some b := by
  unfold resolveCancelIdentifier resolveByIdOrUid
  rw [hdigit]
  simp [hfind]

/-- C6 witness: the example of the claim — bookings Standup (id 1) and
1pm sync (id 2, local start 1:00 PM today), identifier 1 — resolves to
Standup and not to 1pm sync although 1 is a substring of 1pm. -/
theorem digit_identifier_id_precedence_witness :
    resolveCancelIdentifier day0 [bkStandup, bkOnePmSync] "1" = some bkStandup ∧
    bkStandup.id = 1 ∧ bkOnePmSync.title = "1pm sync" :=
  ⟨digit_identifier_id_precedence day0 [bkStandup, bkOnePmSync] "1" bkStandup
      (by decide) (by decide),
    by decide, by decide⟩

/-! ## C8: cancel on a booking without a UID makes no API call -/

/-- C8: when resolution yields a booking whose UID is absent, cancel returns
the cannot-cancel result, and the result does not depend on what the cancel
API call would have returned — the call is never consulted. -/
theorem cancel_missing_uid_no_api_call (today_la : Int) (bookings : List Booking)
    (ident reason : String) (b : Booking) (r1 r2 : Bool)
    (hne : bookings.isEmpty = false)
    (hres : resolveCancelIdentifier today_la bookings ident = some b)
    (huid : b.uid = none) :
    cancel_booking today_la bookings r1 ident reason = .cannotCancel b.id ∧
    cancel_booking today_la bookings r1 ident reason =
      cancel_booking today_la bookings r2 ident reason := by
  unfold cancel_booking
  simp [hne, hres, huid]

/-- C8 witness on a concrete booking without a UID, resolved by title. -/
theorem cancel_missing_uid_no_api_call_witness :
    cancel_booking day0 [bkNoUid] true "planning" "User requested cancellation" =
      .cannotCancel 5 :=
  (cancel_missing_uid_no_api_call day0 [bkNoUid] "planning"
    "User requested cancellation" bkNoUid true false (by decide) (by decide)
    (by decide)).1

/-! ## C10: list_bookings does not read its user_email argument -/

/-- C10: for a fixed booking list the rendered listing is identical for any
two values of the user_email argument. -/
theorem list_bookings_ignores_user_email (e1 e2 : Option String)
    (bookings : List Booking) :
    list_bookings e1 bookings = list_bookings e2 bookings := rfl

/-- C10 witness at two concrete email values. -/
theorem list_bookings_ignores_user_email_witness :
    list_bookings (some "alice@example.com") [bkStandup] =
      list_bookings none [bkStandup] :=
  list_bookings_ignores_user_email (some "alice@example.com") none [bkStandup]

/-! ## C2: the fallback identifier scan of cancel and reschedule -/

/-- The if-chain of the source scan agrees pointwise with the disjunctive
wording of the amended specification. -/
theorem cancelScanMatch_eq_spec (today_la : Int) (ident : String) (b : Booking) :
    cancelScanMatch today_la (pyLower ident) b = cancelScanMatchSpec today_la ident b := by
  unfold cancelScanMatch cancelScanMatchSpec
  cases hc : convert_utc_to_la b.startTime with
  | none =>
    cases h1 : pyContains (pyLower b.title) (pyLower ident) <;> simp [h1]
  | some la =>
    cases h1 : pyContains (pyLower b.title) (pyLower ident)
    · cases h2 : pyContains (pyLower ident) (pyLower (fmtIp la)) <;>
        cases h3 : pyContains (pyLower ident) (fmtYmd la) <;>
          cases h4 : pyContains (pyLower ident) "today" <;>
            cases h5 : daysFromCivil la.year la.month la.day == today_la <;>
              cases h6 : pyContains (pyLower ident) "tomorrow" <;>
                cases h7 : daysFromCivil la.year la.month la.day == today_la + 1 <;>
                  simp [h1, h2, h3, h4, h5, h6, h7]
    · simp [h1]

/-- C2 counterexample: for a booking whose local start is 3:00 PM, the
compact token the code builds is the zero-padded 03pm, so the identifier
3pm of the claim matches nothing; and the reschedule fallback has no time
rule at all, so even 03pm resolves in cancel but not in reschedule. -/
theorem cancel_reschedule_scan_counterexample :
    resolveCancelIdentifier day0 [bkStandup] "3pm" = none ∧
    resolveRescheduleIdentifier [bkStandup] "03pm" = none ∧
    resolveCancelIdentifier day0 [bkStandup] "03pm" = some bkStandup := by
  exact ⟨by decide, by decide, by decide⟩

/-- C2 amended: when neither the numeric-id rule nor the UID rule resolves
the identifier, cancel takes the first booking in list order satisfying the
scan predicate (title substring, then zero-padded hour+meridiem or local
date substring, then today, then tomorrow, in that order per booking),
while the reschedule fallback checks only the case-insensitive title
substring. -/
theorem identifier_fallback_scan_characterization (today_la : Int)
    (bookings : List Booking) (ident : String)
    (h : resolveByIdOrUid bookings ident = none) :
    resolveCancelIdentifier today_la bookings ident =
      bookings.find? (cancelScanMatchSpec today_la ident) ∧
    resolveRescheduleIdentifier bookings ident =
      bookings.find? (fun b => pyContains (pyLower b.title) (pyLower ident)) := by
  unfold resolveCancelIdentifier resolveRescheduleIdentifier
  rw [h]
  exact ⟨find?_congr_pred _ _ (fun b => cancelScanMatch_eq_spec today_la ident b)
    bookings, rfl⟩

/-- C2 witness at a concrete identifier that reaches the fallback scan. -/
theorem identifier_fallback_scan_characterization_witness :
    resolveCancelIdentifier day0 [bkStandup, bkOnePmSync] "03pm" =
      [bkStandup, bkOnePmSync].find? (cancelScanMatchSpec day0 "03pm") :=
  (identifier_fallback_scan_characterization day0 [bkStandup, bkOnePmSync] "03pm"
    (by decide)).1

/-! ## C9: the not-found result of cancel -/

/-- C9 counterexample: with a booking whose start time does not parse and an
identifier resolving to nothing, the not-found listing itself raises, and
the outer handler returns a generic error string instead of the enumerating
not-found result (still no exception escapes). -/
theorem cancel_not_found_counterexample :
    resolveCancelIdentifier day0 [bkBadTime] "zzz" = none ∧
    cancel_booking day0 [bkBadTime] true "zzz" "r" =
      .error "Error canceling booking" := by
  exact ⟨by decide, by decide⟩

/-- C9 amended: when the booking list is non-empty, the identifier resolves
to nothing and every booking start time converts, cancel returns the
not-found result whose listing has one line per booking (title, id, UID and
local start time), and it never throws (the embedding is a total function
whose only other outcome on this path is the handled error string). -/
theorem cancel_not_found_lists_all_bookings (today_la : Int)
    (bookings : List Booking) (r : Bool) (ident reason : String) (L : List String)
    (hne : bookings.isEmpty = false)
    (hres : resolveCancelIdentifier today_la bookings ident = none)
    (hlines : bookings.mapM notFoundLine = some L) :
    cancel_booking today_la bookings r ident reason = .notFound ident L ∧
    L.length = bookings.length := by
  refine ⟨?_, mapM_option_length notFoundLine bookings L hlines⟩
  have hloop : List.mapM.loop notFoundLine bookings [] = some L := hlines
  unfold cancel_booking
  simp [hne, hres, hloop]

/-- C9 witness on two concrete bookings and an identifier matching neither. -/
theorem cancel_not_found_lists_all_bookings_witness :
    cancel_booking day0 [bkStandup, bkOnePmSync] true "zzz" "r" =
      .notFound "zzz"
        ["- Standup (ID: 1, UID: uid-standup) - August 26 at 03:00 PM (PT)",
         "- 1pm sync (ID: 2, UID: uid-sync) - August 26 at 01:00 PM (PT)"] :=
  (cancel_not_found_lists_all_bookings day0 [bkStandup, bkOnePmSync] true "zzz" "r"
    ["- Standup (ID: 1, UID: uid-standup) - August 26 at 03:00 PM (PT)",
     "- 1pm sync (ID: 2, UID: uid-sync) - August 26 at 01:00 PM (PT)"]
    (by decide) (by decide) (by decide)).1

/-! ## C7: the unavailable result of book -/

/-- C7 counterexample: with a non-empty slot list none of whose first five
entries converts, the no-match branch does not produce the unavailable
result the claim prescribes for every non-empty slot list — it answers with
the no-availability result instead. -/
theorem book_unavailable_counterexample :
    ([⟨"garbage", 1, none⟩] : List AvailableSlot) ≠ [] ∧
    requested_time_matches [⟨"garbage", 1, none⟩] "2025-08-26" "08:00" = some [] ∧
    book_meeting [⟨"garbage", 1, none⟩] (.error "unused")
      "2025-08-26" "08:00" "Sync" "Ada" "ada@example.com" "" =
      .noSlots "2025-08-26" := by
  exact ⟨by decide, by decide, by decide⟩

/-- C7 amended: on a no-match request against a non-empty slot list the tool
returns (never throws) the unavailable result listing the local renderings
of the first five slots in API order, skipping slots that fail to convert —
falling back to the no-availability result when none of the first five
converts — and the listed times number at most five. -/
theorem book_unavailable_lists_at_most_five
    (slots : List AvailableSlot) (createResult : Except String Booking)
    (date time title an ae de : String) (ymd : Int × Int × Int) (hm : Int × Int)
    (hpd : parse_date date = some ymd) (hpt : parse_time time = some hm)
    (hnm : slots.filter (fun slot => pyStartsWith slot.time (minuteKey ymd hm)) = [])
    (hne : slots ≠ []) :
    book_meeting slots createResult date time title an ae de =
      (if available_times_la slots = [] then BookResult.noSlots date
       else .unavailable time date (available_times_la slots)) ∧
    (available_times_la slots).length ≤ 5 := by
  constructor
  · have hne2 : slots.isEmpty = false := by
      cases slots with
      | nil => cases hne rfl
      | cons a t => rfl
    unfold book_meeting
    rw [hpd, hpt]
    cases hat : available_times_la slots with
    | nil => simp [hnm, hne2, hat]
    | cons x xs => simp [hnm, hne2, hat]
  · unfold available_times_la
    exact le_trans (List.length_filterMap_le _ _)
      (by rw [List.length_take]; exact Nat.min_le_left _ _)

/-- C7 witness: a request at 07:00 against the six-slot fixture returns the
unavailable result listing the four convertible among the first five slots,
in API order. -/
theorem book_unavailable_lists_at_most_five_witness :
    book_meeting manySlots (.error "unused")
      "2025-08-26" "07:00" "Sync" "Ada" "ada@example.com" "" =
      .unavailable "07:00" "2025-08-26"
        ["08:00 AM", "08:30 AM", "09:30 AM", "10:00 AM"] := by
  have h := (book_unavailable_lists_at_most_five manySlots (.error "unused")
    "2025-08-26" "07:00" "Sync" "Ada" "ada@example.com" "" (2025, 8, 26) (7, 0)
    (by decide) (by decide) (by decide) (by decide)).1
  rw [h]
  decide

/-! ## C3: grouping and ordering of the get-available-slots listing -/

/-- Filing one time under one date touches exactly that date key. -/
theorem lookupGroup_addSlotToGroups (gs : List (String × List String))
    (d t k : String) :
    lookupGroup (addSlotToGroups gs d t) k =
      if k = d then lookupGroup gs k ++ [t] else lookupGroup gs k := by
  induction gs with
  | nil =>
    by_cases hk : k = d
    · subst hk; simp [addSlotToGroups, lookupGroup]
    · have hdk : ¬ d = k := fun h => hk h.symm
      simp [addSlotToGroups, lookupGroup, hk, hdk]
  | cons p rest ih =>
    obtain ⟨k0, ts0⟩ := p
    by_cases h0 : k0 = d
    · subst h0
      by_cases hk : k0 = k
      · subst hk; simp [addSlotToGroups, lookupGroup]
      · have hk2 : ¬ k = k0 := fun h => hk h.symm
        simp [addSlotToGroups, lookupGroup, hk, hk2]
    · by_cases hk : k0 = k
      · subst hk
        have hkd : ¬ k0 = d := h0
        simp [addSlotToGroups, lookupGroup, h0, hkd]
      · have hk2 : ¬ k = k0 := fun h => hk h.symm
        simp [addSlotToGroups, lookupGroup, h0, hk, hk2, ih]

/-- groupTimes on the empty slot list. -/
theorem groupTimes_nil (d : String) : groupTimes [] d = [] := rfl

/-- groupTimes skips a slot whose time fails to convert. -/
theorem groupTimes_cons_none (s : AvailableSlot) (rest : List AvailableSlot)
    (d : String) (hc : convert_utc_to_la s.time = none) :
    groupTimes (s :: rest) d = groupTimes rest d := by
  unfold groupTimes
  simp only [List.filterMap_cons, hc]

/-- groupTimes files a convertible slot under its own local date only. -/
theorem groupTimes_cons_some (s : AvailableSlot) (rest : List AvailableSlot)
    (d : String) (la : PyDateTime) (hc : convert_utc_to_la s.time = some la) :
    groupTimes (s :: rest) d =
      if fmtYmd la = d then fmtIMp la :: groupTimes rest d
      else groupTimes rest d := by
  unfold groupTimes
  simp only [List.filterMap_cons, hc]
  by_cases he : fmtYmd la = d
  · simp [List.filter_cons, he]
  · simp [List.filter_cons, he]

/-- Folding the grouping step appends, per date key, the formatted times of
the processed slots in order. -/
theorem lookupGroup_foldl (slots : List AvailableSlot) :
    ∀ (gs : List (String × List String)) (d : String),
      lookupGroup (slots.foldl slotStep gs) d = lookupGroup gs d ++ groupTimes slots d := by
  induction slots with
  | nil => intro gs d; simp [groupTimes_nil]
  | cons s rest ih =>
    intro gs d
    simp only [List.foldl_cons]
    cases hc : convert_utc_to_la s.time with
    | none =>
      rw [show slotStep gs s = gs by simp [slotStep, hc]]
      rw [ih gs d, groupTimes_cons_none s rest d hc]
    | some la =>
      rw [show slotStep gs s = addSlotToGroups gs (fmtYmd la) (fmtIMp la) by
        simp [slotStep, hc]]
      rw [ih _ d, lookupGroup_addSlotToGroups, groupTimes_cons_some s rest d la hc]
      by_cases he : fmtYmd la = d
      · rw [if_pos he.symm, if_pos he]
        simp
      · have he2 : ¬ d = fmtYmd la := fun h => he h.symm
        rw [if_neg he2, if_neg he]

/-- The grouped dict maps each date key to exactly the formatted times of
the slots on that local date, in API order. -/
theorem lookupGroup_buildGroups (slots : List AvailableSlot) (d : String) :
    lookupGroup (buildGroups slots) d = groupTimes slots d := by
  have h := lookupGroup_foldl slots [] d
  simpa [buildGroups, lookupGroup] using h

/-- C3 counterexample: two same-date slots, 08:00 AM and 01:00 PM local, are
rendered in the order 01:00 PM then 08:00 AM — ascending as strings, not
chronologically — refuting the claimed ascending chronological order. -/
theorem slots_times_not_chronological_counterexample :
    slots_by_date_sorted
      [⟨"2025-08-26T15:00:00Z", 1, none⟩, ⟨"2025-08-26T20:00:00Z", 1, none⟩] =
      [("2025-08-26", ["01:00 PM", "08:00 AM"])] ∧
    convert_utc_to_la "2025-08-26T15:00:00Z" = some ⟨2025, 8, 26, 8, 0, 0⟩ ∧
    convert_utc_to_la "2025-08-26T20:00:00Z" = some ⟨2025, 8, 26, 13, 0, 0⟩ ∧
    fmtIMp ⟨2025, 8, 26, 8, 0, 0⟩ = "08:00 AM" ∧
    fmtIMp ⟨2025, 8, 26, 13, 0, 0⟩ = "01:00 PM" := by
  exact ⟨by decide, by decide, by decide, by decide, by decide⟩

/-- C3 amended: the end date defaults to the start date when unspecified;
the listing groups slots by Los Angeles civil date, its date keys are in
ascending string order, and the times inside each date group are the
formatted times of exactly the slots on that local date, in ascending string
order of the rendered HH:MM AM/PM text (which need not be chronological). -/
theorem get_available_slots_grouping_sorted
    (env : String → String → List AvailableSlot) (date : String)
    (slots : List AvailableSlot) :
    get_available_slots env date "" = get_available_slots env date date ∧
    ((slots_by_date_sorted slots).map Prod.fst).Sorted strLeP ∧
    ∀ p ∈ slots_by_date_sorted slots,
      p.2.Sorted strLeP ∧ p.2.Perm (groupTimes slots p.1) := by
  refine ⟨?_, ?_, ?_⟩
  · have h0 : pyStrTruthy "" = false := by decide
    unfold get_available_slots
    by_cases hd : pyStrTruthy date <;> simp [h0, hd]
  · have hk : (slots_by_date_sorted slots).map Prod.fst =
        sortStrings ((buildGroups slots).map Prod.fst) := by
      unfold slots_by_date_sorted
      rw [List.map_map]
      have hfun : (Prod.fst ∘ fun d =>
          (d, sortStrings (lookupGroup (buildGroups slots) d))) =
          fun d : String => d := rfl
      rw [hfun, List.map_id']
    rw [hk]
    exact List.sorted_insertionSort strLeP _
  · intro p hp
    unfold slots_by_date_sorted at hp
    simp only [List.mem_map] at hp
    obtain ⟨d, _, rfl⟩ := hp
    refine ⟨List.sorted_insertionSort strLeP _, ?_⟩
    show (sortStrings (lookupGroup (buildGroups slots) d)).Perm (groupTimes slots d)
    rw [lookupGroup_buildGroups]
    exact List.perm_insertionSort strLeP _

/-- C3 witness: the sorted-keys component at the two-slot fixture. -/
theorem get_available_slots_grouping_sorted_witness :
    ((slots_by_date_sorted
      [⟨"2025-08-26T15:00:00Z", 1, none⟩, ⟨"2025-08-26T20:00:00Z", 1, none⟩]).map
        Prod.fst).Sorted strLeP :=
  (get_available_slots_grouping_sorted (fun _ _ => []) "2025-08-26"
    [⟨"2025-08-26T15:00:00Z", 1, none⟩, ⟨"2025-08-26T20:00:00Z", 1, none⟩]).2.1

